import Mathlib

/-!
Verification of the V-Compass plane-tracking application.

The repository contains three variants of the same React application:
`src/src/App.jsx` (mock-only variant, compound direction phrases) and two
variants inside `src/unnamed/part_000` (the first with named intercardinal
phrases and a mock mode, the second with compound phrases and live mode
only).  The shallow embedding below translates the decision logic of these
variants: the sector classifier, the per-poll scan over the fetched plane
list, the notification debounce, the mock-data cycle, the idle-rotation
effects, and the sequential audio-narration queue.

Numeric conventions: geographic coordinates, altitudes and bearings are
modelled as rationals.  The two trigonometric helpers `calculateDistance`
and `calculateBearing` compute with `Math.sin`, `Math.cos`, `Math.atan2`
and `Math.sqrt`, i.e. with transcendental real functions; every definition
that calls them is therefore parametrised by a function of type `DistF`
standing for the helper, and every theorem about the surrounding selection
and threshold logic is proved for all such functions.
-/

namespace VCompass

/-- A geographic point, `{lat, lng}` in the source. -/
structure GeoPoint where
  lat : ℚ
  lng : ℚ
deriving DecidableEq

/-- Type of the abstracted numeric helpers `calculateDistance` and
`calculateBearing`: four coordinates in, one number out. -/
def DistF : Type := ℚ → ℚ → ℚ → ℚ → ℚ

/-- `NOTIFICATION_RADIUS_KM` of `src/unnamed/part_000` (both variants). -/
def NOTIFICATION_RADIUS_KM : ℚ := 30

/-- `MINIMUM_ALTITUDE_FT`, shared by all variants. -/
def MINIMUM_ALTITUDE_FT : ℚ := 10000

/-- The metre-to-feet factor `3.28084` written literally in the source. -/
def FT_PER_M : ℚ := 3.28084

/-- `getDirectionPhrase` of `src/src/App.jsx` lines 29-39 (identical to the
second variant in `src/unnamed/part_000` lines 395-405): the compound-phrase
sector classifier. -/
def getDirectionPhrase (bearing : ℚ) : List String :=
  if bearing > 337.5 ∨ bearing ≤ 22.5 then ["North"]
  else if bearing > 22.5 ∧ bearing ≤ 67.5 then ["between", "North", "and", "East"]
  else if bearing > 67.5 ∧ bearing ≤ 112.5 then ["East"]
  else if bearing > 112.5 ∧ bearing ≤ 157.5 then ["between", "East", "and", "South"]
  else if bearing > 157.5 ∧ bearing ≤ 202.5 then ["South"]
  else if bearing > 202.5 ∧ bearing ≤ 247.5 then ["between", "South", "and", "West"]
  else if bearing > 247.5 ∧ bearing ≤ 292.5 then ["West"]
  else if bearing > 292.5 ∧ bearing ≤ 337.5 then ["between", "West", "and", "North"]
  else []

/-- `getDirectionPhrase` of `src/unnamed/part_000` lines 32-42: the
named-intercardinal sector classifier, with the same boundaries. -/
def getDirectionPhraseNamed (bearing : ℚ) : List String :=
  if bearing > 337.5 ∨ bearing ≤ 22.5 then ["North"]
  else if bearing > 22.5 ∧ bearing ≤ 67.5 then ["NorthEast"]
  else if bearing > 67.5 ∧ bearing ≤ 112.5 then ["East"]
  else if bearing > 112.5 ∧ bearing ≤ 157.5 then ["EastSouth"]
  else if bearing > 157.5 ∧ bearing ≤ 202.5 then ["South"]
  else if bearing > 202.5 ∧ bearing ≤ 247.5 then ["SouthWest"]
  else if bearing > 247.5 ∧ bearing ≤ 292.5 then ["West"]
  else if bearing > 292.5 ∧ bearing ≤ 337.5 then ["NorthWest"]
  else []

/-- The guard condition of the i-th branch of the sector classifier, exactly
as written in the source if-chain (branch 0 is the wrapping North test). -/
def sectorCond (i : ℕ) (b : ℚ) : Prop :=
  if i = 0 then b > 337.5 ∨ b ≤ 22.5
  else if i = 1 then b > 22.5 ∧ b ≤ 67.5
  else if i = 2 then b > 67.5 ∧ b ≤ 112.5
  else if i = 3 then b > 112.5 ∧ b ≤ 157.5
  else if i = 4 then b > 157.5 ∧ b ≤ 202.5
  else if i = 5 then b > 202.5 ∧ b ≤ 247.5
  else if i = 6 then b > 247.5 ∧ b ≤ 292.5
  else if i = 7 then b > 292.5 ∧ b ≤ 337.5
  else False

/-- An aircraft record as returned by the backend (`data.planes` entries)
or built by the mock generator. -/
structure Plane where
  icao24 : String
  callsign : Option String
  lat : ℚ
  lon : ℚ
  altitude_m : ℚ
  velocity_ms : ℚ
deriving DecidableEq

/-- A notification candidate: `{ ...plane, altitude_ft: altitudeFt }`. -/
structure Candidate where
  plane : Plane
  altitude_ft : ℚ
deriving DecidableEq

/-- Identity of a candidate. -/
def Candidate.icao24 (c : Candidate) : String := c.plane.icao24

/-- The `detectedPlane` state value: a candidate plus the `isMock` flag
attached at promotion time. -/
structure NotifiedPlane where
  plane : Plane
  altitude_ft : ℚ
  isMock : Bool
deriving DecidableEq

/-- Identity of the currently notified plane. -/
def NotifiedPlane.icao24 (d : NotifiedPlane) : String := d.plane.icao24

/-- Promotion `setDetectedPlane({ ...candidate, isMock })`. -/
def Candidate.promote (c : Candidate) (isMock : Bool) : NotifiedPlane :=
  ⟨c.plane, c.altitude_ft, isMock⟩

/-- The React state relevant to one poll cycle: `detectedPlane`, `bearing`
and `statusMessage`. -/
structure AppState where
  detectedPlane : Option NotifiedPlane
  bearing : ℚ
  statusMessage : String
deriving DecidableEq

/-- Accumulator of the `for (const plane of data.planes)` loop in
`fetchRealPlaneData`: `closestPlaneForCompass`, `closestPlaneForNotification`
and `minDistance` (`none` models the initial `Infinity`). -/
structure ScanAcc where
  closestPlaneForCompass : Option Plane
  closestPlaneForNotification : Option Candidate
  minDistance : Option ℚ
deriving DecidableEq

/-- The comparison `distance < minDistance` where `minDistance` starts as
`Infinity` (modelled by `none`). -/
def ltInf (d : ℚ) : Option ℚ → Prop
  | none => True
  | some m => d < m

instance (d : ℚ) : (m : Option ℚ) → Decidable (ltInf d m)
  | none => isTrue trivial
  | some m => inferInstanceAs (Decidable (d < m))

/-- Distance from the user position to a plane, as computed in the loop
body: `calculateDistance(userLocation.lat, userLocation.lng, plane.lat,
plane.lon)`. -/
def planeDist (calcDist : DistF) (user : GeoPoint) (p : Plane) : ℚ :=
  calcDist user.lat user.lng p.lat p.lon

/-- One iteration of the loop in `fetchRealPlaneData`
(`src/unnamed/part_000` lines 190-200 and 519-533): update the compass
candidate on a strict distance improvement, then overwrite the notification
candidate whenever the plane passes both admission thresholds. -/
def scanStep (calcDist : DistF) (user : GeoPoint) (acc : ScanAcc) (plane : Plane) : ScanAcc :=
  let distance := planeDist calcDist user plane
  let acc1 := if ltInf distance acc.minDistance then
      { acc with minDistance := some distance, closestPlaneForCompass := some plane }
    else acc
  let altitudeFt := plane.altitude_m * FT_PER_M
  if distance < NOTIFICATION_RADIUS_KM ∧ altitudeFt > MINIMUM_ALTITUDE_FT then
    { acc1 with closestPlaneForNotification := some ⟨plane, altitudeFt⟩ }
  else acc1

/-- The whole scan loop of `fetchRealPlaneData`, starting from
`closestPlaneForNotification = null`, `closestPlaneForCompass = null`,
`minDistance = Infinity`. -/
def scanPlanes (calcDist : DistF) (user : GeoPoint) (planes : List Plane) : ScanAcc :=
  planes.foldl (scanStep calcDist user) ⟨none, none, none⟩

/-- Whether a plane passes both admission thresholds
(`distance < NOTIFICATION_RADIUS_KM && altitudeFt > MINIMUM_ALTITUDE_FT`). -/
def qualifies (calcDist : DistF) (user : GeoPoint) (p : Plane) : Prop :=
  planeDist calcDist user p < NOTIFICATION_RADIUS_KM ∧
    p.altitude_m * FT_PER_M > MINIMUM_ALTITUDE_FT

instance (calcDist : DistF) (user : GeoPoint) (p : Plane) :
    Decidable (qualifies calcDist user p) := by
  unfold qualifies; infer_instance

/-- The debounce logic shared by `fetchRealPlaneData` and
`mockFetchPlaneData`: `if (candidate) { if (!detectedPlane ||
detectedPlane.icao24 !== candidate.icao24) { setDetectedPlane(...); play
notification sound; } } else { setDetectedPlane(null); }`.  The boolean
output records whether the notification sound collaborator was signalled. -/
def debounceStep (isMock : Bool) (detected : Option NotifiedPlane)
    (candidate : Option Candidate) : Option NotifiedPlane × Bool :=
  match candidate with
  | some c =>
    match detected with
    | none => (some (c.promote isMock), true)
    | some d =>
      if d.icao24 ≠ c.icao24 then (some (c.promote isMock), true)
      else (some d, false)
  | none => (none, false)

/-- The success path of `fetchRealPlaneData` after the JSON response is in
hand: run the scan loop, commit the compass bearing when a compass target
exists, then run the debounce on the notification candidate. -/
def fetchCycleSuccess (calcDist calcBear : DistF) (user : GeoPoint)
    (planes : List Plane) (s : AppState) : AppState × Bool :=
  let acc := scanPlanes calcDist user planes
  let s1 := match acc.closestPlaneForCompass with
    | some p => { s with bearing := calcBear user.lat user.lng p.lat p.lon }
    | none => s
  let r := debounceStep false s1.detectedPlane acc.closestPlaneForNotification
  ({ s1 with detectedPlane := r.1 }, r.2)

/-- `fetchRealPlaneData` of `src/unnamed/part_000` lines 178-219: no-op
without a user location; otherwise set the scanning status, and either
process the fetched plane list or, when the fetch or parse failed (modelled
by `Except.error`), set the error status and leave everything else alone. -/
def fetchRealPlaneData (calcDist calcBear : DistF) (user : Option GeoPoint)
    (result : Except String (List Plane)) (s : AppState) : AppState × Bool :=
  match user with
  | none => (s, false)
  | some u =>
    let s1 := { s with statusMessage := "Scanning the skies for live data..." }
    match result with
    | Except.ok planes => fetchCycleSuccess calcDist calcBear u planes s1
    | Except.error _ =>
      ({ s1 with statusMessage := "Error connecting to server. Is it running?" }, false)

/-- The polling loop: one `fetchRealPlaneData` call per scheduled tick, the
interval never being cleared by a failed cycle.  Returns the final state and
the per-cycle notification signals. -/
def runPolls (calcDist calcBear : DistF) (user : Option GeoPoint) :
    AppState → List (Except String (List Plane)) → AppState × List Bool
  | s, [] => (s, [])
  | s, r :: rs =>
    let step := fetchRealPlaneData calcDist calcBear user r s
    let rest := runPolls calcDist calcBear user step.1 rs
    (rest.1, step.2 :: rest.2)

/-- Iterated debounce: one candidate per evaluation cycle, counting how many
times the new-detection signal fires. -/
def runDebounce (isMock : Bool) :
    Option NotifiedPlane → List (Option Candidate) → Option NotifiedPlane × ℕ
  | d, [] => (d, 0)
  | d, c :: cs =>
    let step := debounceStep isMock d c
    let rest := runDebounce isMock step.1 cs
    (rest.1, (if step.2 then 1 else 0) + rest.2)

/-- The random draws consumed by one `mockFetchPlaneData` cycle: the two
position offsets `(Math.random() - 0.5) * 0.1`, the altitude draw
`Math.random() * 20000`, the velocity draw `Math.random() * 100` and the
callsign number. -/
structure MockParams where
  latOff : ℚ
  lonOff : ℚ
  altRand : ℚ
  velRand : ℚ
  callN : ℕ
deriving DecidableEq

/-- The identity string of a mock plane: `'mock' + Date.now()`. -/
def mkMockIcao (t : ℕ) : String := "mock" ++ Nat.repr t

/-- The mock plane built by `mockFetchPlaneData` of `src/unnamed/part_000`
lines 153-160 from the timestamp `t` and the random draws. -/
def mkMockPlane (user : GeoPoint) (t : ℕ) (pr : MockParams) : Plane :=
  { icao24 := mkMockIcao t
  , callsign := some ("MOCK " ++ Nat.repr pr.callN)
  , lat := user.lat + pr.latOff
  , lon := user.lng + pr.lonOff
  , altitude_m := (MINIMUM_ALTITUDE_FT + pr.altRand) / FT_PER_M
  , velocity_ms := 200 + pr.velRand }

/-- `mockFetchPlaneData` of `src/unnamed/part_000` lines 149-176: build the
mock plane, always commit its bearing, then run the admission test and the
debounce against the current `detectedPlane`. -/
def mockFetchPlaneData (calcDist calcBear : DistF) (user : Option GeoPoint)
    (t : ℕ) (pr : MockParams) (s : AppState) : AppState × Bool :=
  match user with
  | none => (s, false)
  | some u =>
    let mp := mkMockPlane u t pr
    let distance := calcDist u.lat u.lng mp.lat mp.lon
    let newBearing := calcBear u.lat u.lng mp.lat mp.lon
    let altitudeFt := mp.altitude_m * FT_PER_M
    let s1 := { s with statusMessage := "Generating mock plane data..."
                     , bearing := newBearing }
    if distance < NOTIFICATION_RADIUS_KM ∧ altitudeFt > MINIMUM_ALTITUDE_FT then
      match s1.detectedPlane with
      | none => ({ s1 with detectedPlane := some ⟨mp, altitudeFt, true⟩ }, true)
      | some d =>
        if d.icao24 ≠ mp.icao24 then
          ({ s1 with detectedPlane := some ⟨mp, altitudeFt, true⟩ }, true)
        else (s1, false)
    else ({ s1 with detectedPlane := none }, false)

/-- Whether the mock plane of a given cycle passes the admission test. -/
def mockQualifies (calcDist : DistF) (u : GeoPoint) (t : ℕ) (pr : MockParams) : Bool :=
  let mp := mkMockPlane u t pr
  decide (calcDist u.lat u.lng mp.lat mp.lon < NOTIFICATION_RADIUS_KM) &&
    decide (mp.altitude_m * FT_PER_M > MINIMUM_ALTITUDE_FT)

/-- The mock polling loop: one `mockFetchPlaneData` call per timer tick,
each tick carrying its `Date.now()` timestamp and its random draws. -/
def runMock (calcDist calcBear : DistF) (user : Option GeoPoint) :
    AppState → List (ℕ × MockParams) → AppState × List Bool
  | s, [] => (s, [])
  | s, (t, pr) :: rest =>
    let step := mockFetchPlaneData calcDist calcBear user t pr s
    let tail := runMock calcDist calcBear user step.1 rest
    (tail.1, step.2 :: tail.2)

/-! ### The idle-rotation effects -/

/-- The React state the two idle-rotation effects depend on, together with
one activity flag per effect: `scanningActive` for the interval effect of
`src/unnamed/part_000` lines 239-247 and `rotateActive` for the
`requestAnimationFrame` effect of lines 623-647. -/
structure UiState where
  isTracking : Bool
  isMockMode : Bool
  detectedPlane : Option NotifiedPlane
  scanningActive : Bool
  rotateActive : Bool
deriving DecidableEq

/-- Effect reconciliation: after every committed state change React runs the
effect cleanups and bodies, so the interval of lines 239-247 is scheduled
exactly when `(isTracking || isMockMode) && !detectedPlane` and the
animation frame of lines 623-647 exactly when `isTracking &&
!detectedPlane`. -/
def reconcileEffects (s : UiState) : UiState :=
  { s with scanningActive := (s.isTracking || s.isMockMode) && s.detectedPlane.isNone
         , rotateActive := s.isTracking && s.detectedPlane.isNone }

/-- The state setters that feed the idle-rotation effects. -/
inductive UiEvent where
  | setTracking (b : Bool)
  | setMockMode (b : Bool)
  | setDetectedPlane (p : Option NotifiedPlane)

/-- Apply a setter to the state. -/
def applyUi (s : UiState) : UiEvent → UiState
  | UiEvent.setTracking b => { s with isTracking := b }
  | UiEvent.setMockMode b => { s with isMockMode := b }
  | UiEvent.setDetectedPlane p => { s with detectedPlane := p }

/-- One observable step: a committed state change followed by the effect
reconciliation. -/
def uiStep (s : UiState) (e : UiEvent) : UiState := reconcileEffects (applyUi s e)

/-- Run a sequence of committed state changes, observing the state after
each effect flush. -/
def runUi (s : UiState) (evs : List UiEvent) : UiState :=
  evs.foldl uiStep (reconcileEffects s)

/-! ### The narration queue -/

/-- The narration state of `src/unnamed/part_000`: the token queue
`audioQueue.current`, the flag `isSpeaking.current` and the clip currently
loaded into the single `<audio>` element (`none` when nothing plays). -/
structure AudioState where
  queue : List String
  isSpeaking : Bool
  playing : Option String
deriving DecidableEq

/-- The `soundFiles` map of `src/unnamed/part_000` lines 104-114. -/
def soundFiles : String → Option String
  | "notification" => some "/arfan-odraa.mp3"
  | "North" => some "/aruna-vadak.mp3"
  | "South" => some "/aruna-thekk.mp3"
  | "East" => some "/aruna-kizhakk.mp3"
  | "West" => some "/aruna-padinjaru.mp3"
  | "NorthWest" => some "/fadil-north-west.mp3"
  | "NorthEast" => some "/fadil-north-east.mp3"
  | "SouthWest" => some "/fadil-south-west.mp3"
  | "EastSouth" => some "/fadil-east-south.mp3"
  | _ => none

/-- `stopAllAudio` of `src/unnamed/part_000` lines 250-257: pause and rewind
the player (so nothing is in flight), empty the queue, clear the flag. -/
def stopAllAudio (_s : AudioState) : AudioState :=
  { queue := [], isSpeaking := false, playing := none }

/-- The recursion inside `playNextInQueue` (lines 259-277): an empty queue
clears the flag; otherwise the flag is set, the head token is shifted, and
its clip starts when a source exists for it, the token being skipped
otherwise. -/
def playNextAux : List String → Option String → AudioState
  | [], playing => { queue := [], isSpeaking := false, playing := playing }
  | name :: rest, playing =>
    match soundFiles name with
    | some _ => { queue := rest, isSpeaking := true, playing := some name }
    | none => playNextAux rest playing

/-- `playNextInQueue` applied to the narration state. -/
def playNextInQueue (s : AudioState) : AudioState := playNextAux s.queue s.playing

/-- The `onEnded` handler of the narration `<audio>` element: the clip just
completed, then `playNextInQueue` advances the queue. -/
def onEnded (s : AudioState) : AudioState := playNextInQueue { s with playing := none }

/-- `handleSpeakDirection` of `src/unnamed/part_000` lines 279-286: a no-op
while speaking or without a notified plane; otherwise cancel everything,
recompute the bearing to the notified plane, classify it and start playing
the phrase. -/
def handleSpeakDirection (calcBear : DistF) (user : GeoPoint)
    (detectedPlane : Option NotifiedPlane) (s : AudioState) : AudioState :=
  if s.isSpeaking then s
  else
    match detectedPlane with
    | none => s
    | some plane =>
      let s1 := stopAllAudio s
      let planeBearing := calcBear user.lat user.lng plane.plane.lat plane.plane.lon
      let phrase := getDirectionPhraseNamed planeBearing
      playNextInQueue { s1 with queue := phrase }

/-- The `audioRefs` key set of `src/src/App.jsx` lines 123-133. -/
def audioRefsApp : String → Bool
  | "North" => true
  | "South" => true
  | "East" => true
  | "West" => true
  | "between" => true
  | "and" => true
  | _ => false

/-- The recursion inside `playNextInQueue` of `src/src/App.jsx` lines
211-225, which looks tokens up in `audioRefs` instead of `soundFiles`. -/
def playNextAuxApp : List String → Option String → AudioState
  | [], playing => { queue := [], isSpeaking := false, playing := playing }
  | name :: rest, playing =>
    if audioRefsApp name then { queue := rest, isSpeaking := true, playing := some name }
    else playNextAuxApp rest playing

/-- `playNextInQueue` of `src/src/App.jsx`. -/
def playNextInQueueApp (s : AudioState) : AudioState := playNextAuxApp s.queue s.playing

/-- `handleSpeakDirection` of `src/src/App.jsx` lines 227-232: a no-op while
speaking; otherwise classify the committed `bearing` state value and start
playing the phrase.  Note that it reads the `bearing` React state rather
than recomputing a bearing toward `detectedPlane`. -/
def handleSpeakDirectionApp (bearing : ℚ) (s : AudioState) : AudioState :=
  if s.isSpeaking then s
  else playNextInQueueApp { s with queue := getDirectionPhrase bearing }

/-- The events driving the narration queue of `src/unnamed/part_000`: a
narration request, the completion callback of the playing clip, and
`stopAllAudio`. -/
inductive AudioEvent where
  | speak (calcBear : DistF) (user : GeoPoint) (detected : Option NotifiedPlane)
  | ended
  | stopAll

/-- Dispatch one narration event. -/
def audioStep (s : AudioState) : AudioEvent → AudioState
  | AudioEvent.speak calcBear user d => handleSpeakDirection calcBear user d s
  | AudioEvent.ended => onEnded s
  | AudioEvent.stopAll => stopAllAudio s

/-- Run a sequence of narration events. -/
def runAudio (s : AudioState) (evs : List AudioEvent) : AudioState :=
  evs.foldl audioStep s

/-! ### Concrete instances used by counterexamples and witnesses -/

/-- A concrete computable stand-in for the distance helper: the taxicab
distance between the two coordinate pairs. -/
def taxiDist : DistF := fun lat1 lon1 lat2 lon2 => |lat2 - lat1| + |lon2 - lon1|

/-- A concrete stand-in for the bearing helper that always reports due
North. -/
def northBear : DistF := fun _ _ _ _ => 0

/-- The default user location of the source, `{ lat: 10.5925, lng: 76.1555 }`,
shifted here to the origin for readability of the concrete distances. -/
def u0 : GeoPoint := ⟨0, 0⟩

/-- A qualifying plane 1 distance unit from `u0` (altitude 4000 m, which is
13123.36 ft, above the 10000 ft threshold). -/
def pA : Plane := ⟨"A", none, 1, 0, 4000, 200⟩

/-- A qualifying plane 20 distance units from `u0`. -/
def pB : Plane := ⟨"B", none, 20, 0, 4000, 200⟩

/-- A non-qualifying plane: 1 distance unit away but at 100 m (328.084 ft),
below the altitude threshold. -/
def pLow : Plane := ⟨"L", none, 1, 0, 100, 200⟩

/-- An initial app state with nothing detected. -/
def s0 : AppState := ⟨none, 0, ""⟩

/-- A concrete notification candidate with identity `"A"`. -/
def cX : Candidate := ⟨pA, 4000 * FT_PER_M⟩

/-- A concrete notified plane due North of `u0`. -/
def npN : NotifiedPlane := ⟨⟨"N", none, 1, 0, 4000, 200⟩, 4000 * FT_PER_M, false⟩

/-- A concrete UI state with tracking off and nothing detected. -/
def ui0 : UiState := ⟨false, false, none, false, false⟩

/-- Concrete random draws whose mock plane qualifies under `taxiDist`:
offsets of 1 each (distance 2 from the user) and an altitude draw of 5000
(so the altitude round-trips to exactly 15000 ft). -/
def prm : MockParams := ⟨1, 1, 5000, 0, 7⟩

/-- Invariant of the scan loop: either nothing has been seen yet, or the
compass candidate is a seen plane of minimal distance and `minDistance` is
its distance. -/
def CompassInv (cd : DistF) (u : GeoPoint) (seen : List Plane) (acc : ScanAcc) : Prop :=
  (acc.closestPlaneForCompass = none ∧ acc.minDistance = none ∧ seen = []) ∨
  (∃ p, acc.closestPlaneForCompass = some p ∧
    acc.minDistance = some (planeDist cd u p) ∧ p ∈ seen ∧
    ∀ q ∈ seen, planeDist cd u p ≤ planeDist cd u q)

/-- Invariant of the narration state: when the speaking flag is clear, no
clip is in flight. -/
def AudioInv (s : AudioState) : Prop := s.isSpeaking = false → s.playing = none

/-- Decimal value of a digit string, used to invert `Nat.repr`. -/
def digitsVal (l : List Char) : ℕ :=
  l.foldl (fun a c => 10 * a + (c.toNat - 48)) 0

/-! ## Theorems -/

/-- C8: when the external data fetch of a poll fails, the cycle only
changes the status string: the bearing and the detected plane keep exactly
their previous values, no notification signal fires, and the polling loop
processes the remaining scheduled polls from that preserved state instead
of stopping. -/
theorem C8_fetch_error_preserves_state (cd cb : DistF) (u : GeoPoint) (e : String)
    (s : AppState) (rs : List (Except String (List Plane))) :
    (fetchRealPlaneData cd cb (some u) (Except.error e) s).1.bearing = s.bearing ∧
    (fetchRealPlaneData cd cb (some u) (Except.error e) s).1.detectedPlane = s.detectedPlane ∧
    (fetchRealPlaneData cd cb (some u) (Except.error e) s).2 = false ∧
    (fetchRealPlaneData cd cb (some u) (Except.error e) s).1.statusMessage =
      "Error connecting to server. Is it running?" ∧
    runPolls cd cb (some u) s (Except.error e :: rs) =
      ((runPolls cd cb (some u) (fetchRealPlaneData cd cb (some u) (Except.error e) s).1 rs).1,
        false ::
          (runPolls cd cb (some u) (fetchRealPlaneData cd cb (some u) (Except.error e) s).1 rs).2) :=
  ⟨rfl, rfl, rfl, rfl, rfl⟩

/-- C1: the notification candidate computed by the scan loop is NOT the
minimum-distance qualifying sighting: `closestPlaneForNotification` is
overwritten by every qualifying plane, so the last qualifying plane in
iteration order wins.  Here both `pA` (distance 1) and `pB` (distance 20)
qualify, and the loop selects `pB`. -/
theorem C1_candidate_is_last_qualifying :
    (scanPlanes taxiDist u0 [pA, pB]).closestPlaneForNotification =
      some ⟨pB, 4000 * FT_PER_M⟩ ∧
    planeDist taxiDist u0 pA < planeDist taxiDist u0 pB ∧
    qualifies taxiDist u0 pA ∧ qualifies taxiDist u0 pB := by
  refine ⟨?_, ?_, ?_, ?_⟩ <;>
    norm_num [scanPlanes, List.foldl, scanStep, ltInf, planeDist, taxiDist, u0, pA, pB,
      qualifies, NOTIFICATION_RADIUS_KM, MINIMUM_ALTITUDE_FT, FT_PER_M]

/-- C4 counterexample: a bearing of exactly 337.5 degrees does not resolve
to North; it falls in the NorthWest branch of both classifier variants,
because the North test `bearing > 337.5` is strict. -/
theorem C4_boundary_counterexample :
    getDirectionPhraseNamed (337.5 : ℚ) = ["NorthWest"] ∧
    getDirectionPhrase (337.5 : ℚ) = ["between", "West", "and", "North"] ∧
    getDirectionPhraseNamed (337.5 : ℚ) ≠ ["North"] := by
  norm_num [getDirectionPhrase, getDirectionPhraseNamed]
  decide

/-- C9 counterexample: the `App.jsx` narration handler classifies the
committed `bearing` state (here 100 degrees, East) even though the fresh
bearing from the user to the notified plane is 0 degrees (North); the
`part_000` handler at the same scenario narrates the fresh North bearing. -/
theorem C9_stale_bearing_counterexample :
    handleSpeakDirectionApp 100 ⟨[], false, none⟩ = ⟨[], true, some "East"⟩ ∧
    handleSpeakDirection northBear u0 (some npN) ⟨[], false, none⟩ =
      ⟨[], true, some "North"⟩ ∧
    getDirectionPhrase (northBear u0.lat u0.lng npN.plane.lat npN.plane.lon) = ["North"] := by
  refine ⟨?_, ?_, ?_⟩ <;>
    norm_num [handleSpeakDirectionApp, handleSpeakDirection, playNextInQueueApp,
      playNextInQueue, playNextAuxApp, playNextAux, audioRefsApp, soundFiles,
      getDirectionPhrase, getDirectionPhraseNamed, stopAllAudio, northBear, u0, npN]

/-- Sector 0 of both classifiers: the wrapping North branch. -/
lemma sector_north (b : ℚ) (h : b > 337.5 ∨ b ≤ 22.5) :
    getDirectionPhrase b = ["North"] ∧ getDirectionPhraseNamed b = ["North"] := by
  refine ⟨?_, ?_⟩
  · unfold getDirectionPhrase; rw [if_pos h]
  · unfold getDirectionPhraseNamed; rw [if_pos h]

/-- Sector 1 of both classifiers. -/
lemma sector1 (b : ℚ) (h1 : 22.5 < b) (h2 : b ≤ 67.5) :
    getDirectionPhrase b = ["between", "North", "and", "East"] ∧
    getDirectionPhraseNamed b = ["NorthEast"] := by
  have n0 : ¬(b > 337.5 ∨ b ≤ 22.5) := by rintro (h | h) <;> linarith
  refine ⟨?_, ?_⟩
  · unfold getDirectionPhrase; rw [if_neg n0, if_pos ⟨h1, h2⟩]
  · unfold getDirectionPhraseNamed; rw [if_neg n0, if_pos ⟨h1, h2⟩]

/-- Sector 2 of both classifiers. -/
lemma sector2 (b : ℚ) (h1 : 67.5 < b) (h2 : b ≤ 112.5) :
    getDirectionPhrase b = ["East"] ∧ getDirectionPhraseNamed b = ["East"] := by
  have n0 : ¬(b > 337.5 ∨ b ≤ 22.5) := by rintro (h | h) <;> linarith
  have n1 : ¬(b > 22.5 ∧ b ≤ 67.5) := by rintro ⟨x, y⟩; linarith
  refine ⟨?_, ?_⟩
  · unfold getDirectionPhrase; rw [if_neg n0, if_neg n1, if_pos ⟨h1, h2⟩]
  · unfold getDirectionPhraseNamed; rw [if_neg n0, if_neg n1, if_pos ⟨h1, h2⟩]

/-- Sector 3 of both classifiers. -/
lemma sector3 (b : ℚ) (h1 : 112.5 < b) (h2 : b ≤ 157.5) :
    getDirectionPhrase b = ["between", "East", "and", "South"] ∧
    getDirectionPhraseNamed b = ["EastSouth"] := by
  have n0 : ¬(b > 337.5 ∨ b ≤ 22.5) := by rintro (h | h) <;> linarith
  have n1 : ¬(b > 22.5 ∧ b ≤ 67.5) := by rintro ⟨x, y⟩; linarith
  have n2 : ¬(b > 67.5 ∧ b ≤ 112.5) := by rintro ⟨x, y⟩; linarith
  refine ⟨?_, ?_⟩
  · unfold getDirectionPhrase; rw [if_neg n0, if_neg n1, if_neg n2, if_pos ⟨h1, h2⟩]
  · unfold getDirectionPhraseNamed; rw [if_neg n0, if_neg n1, if_neg n2, if_pos ⟨h1, h2⟩]

/-- Sector 4 of both classifiers. -/
lemma sector4 (b : ℚ) (h1 : 157.5 < b) (h2 : b ≤ 202.5) :
    getDirectionPhrase b = ["South"] ∧ getDirectionPhraseNamed b = ["South"] := by
  have n0 : ¬(b > 337.5 ∨ b ≤ 22.5) := by rintro (h | h) <;> linarith
  have n1 : ¬(b > 22.5 ∧ b ≤ 67.5) := by rintro ⟨x, y⟩; linarith
  have n2 : ¬(b > 67.5 ∧ b ≤ 112.5) := by rintro ⟨x, y⟩; linarith
  have n3 : ¬(b > 112.5 ∧ b ≤ 157.5) := by rintro ⟨x, y⟩; linarith
  refine ⟨?_, ?_⟩
  · unfold getDirectionPhrase
    rw [if_neg n0, if_neg n1, if_neg n2, if_neg n3, if_pos ⟨h1, h2⟩]
  · unfold getDirectionPhraseNamed
    rw [if_neg n0, if_neg n1, if_neg n2, if_neg n3, if_pos ⟨h1, h2⟩]

/-- Sector 5 of both classifiers. -/
lemma sector5 (b : ℚ) (h1 : 202.5 < b) (h2 : b ≤ 247.5) :
    getDirectionPhrase b = ["between", "South", "and", "West"] ∧
    getDirectionPhraseNamed b = ["SouthWest"] := by
  have n0 : ¬(b > 337.5 ∨ b ≤ 22.5) := by rintro (h | h) <;> linarith
  have n1 : ¬(b > 22.5 ∧ b ≤ 67.5) := by rintro ⟨x, y⟩; linarith
  have n2 : ¬(b > 67.5 ∧ b ≤ 112.5) := by rintro ⟨x, y⟩; linarith
  have n3 : ¬(b > 112.5 ∧ b ≤ 157.5) := by rintro ⟨x, y⟩; linarith
  have n4 : ¬(b > 157.5 ∧ b ≤ 202.5) := by rintro ⟨x, y⟩; linarith
  refine ⟨?_, ?_⟩
  · unfold getDirectionPhrase
    rw [if_neg n0, if_neg n1, if_neg n2, if_neg n3, if_neg n4, if_pos ⟨h1, h2⟩]
  · unfold getDirectionPhraseNamed
    rw [if_neg n0, if_neg n1, if_neg n2, if_neg n3, if_neg n4, if_pos ⟨h1, h2⟩]

/-- Sector 6 of both classifiers. -/
lemma sector6 (b : ℚ) (h1 : 247.5 < b) (h2 : b ≤ 292.5) :
    getDirectionPhrase b = ["West"] ∧ getDirectionPhraseNamed b = ["West"] := by
  have n0 : ¬(b > 337.5 ∨ b ≤ 22.5) := by rintro (h | h) <;> linarith
  have n1 : ¬(b > 22.5 ∧ b ≤ 67.5) := by rintro ⟨x, y⟩; linarith
  have n2 : ¬(b > 67.5 ∧ b ≤ 112.5) := by rintro ⟨x, y⟩; linarith
  have n3 : ¬(b > 112.5 ∧ b ≤ 157.5) := by rintro ⟨x, y⟩; linarith
  have n4 : ¬(b > 157.5 ∧ b ≤ 202.5) := by rintro ⟨x, y⟩; linarith
  have n5 : ¬(b > 202.5 ∧ b ≤ 247.5) := by rintro ⟨x, y⟩; linarith
  refine ⟨?_, ?_⟩
  · unfold getDirectionPhrase
    rw [if_neg n0, if_neg n1, if_neg n2, if_neg n3, if_neg n4, if_neg n5, if_pos ⟨h1, h2⟩]
  · unfold getDirectionPhraseNamed
    rw [if_neg n0, if_neg n1, if_neg n2, if_neg n3, if_neg n4, if_neg n5, if_pos ⟨h1, h2⟩]

/-- Sector 7 of both classifiers. -/
lemma sector7 (b : ℚ) (h1 : 292.5 < b) (h2 : b ≤ 337.5) :
    getDirectionPhrase b = ["between", "West", "and", "North"] ∧
    getDirectionPhraseNamed b = ["NorthWest"] := by
  have n0 : ¬(b > 337.5 ∨ b ≤ 22.5) := by rintro (h | h) <;> linarith
  have n1 : ¬(b > 22.5 ∧ b ≤ 67.5) := by rintro ⟨x, y⟩; linarith
  have n2 : ¬(b > 67.5 ∧ b ≤ 112.5) := by rintro ⟨x, y⟩; linarith
  have n3 : ¬(b > 112.5 ∧ b ≤ 157.5) := by rintro ⟨x, y⟩; linarith
  have n4 : ¬(b > 157.5 ∧ b ≤ 202.5) := by rintro ⟨x, y⟩; linarith
  have n5 : ¬(b > 202.5 ∧ b ≤ 247.5) := by rintro ⟨x, y⟩; linarith
  have n6 : ¬(b > 247.5 ∧ b ≤ 292.5) := by rintro ⟨x, y⟩; linarith
  refine ⟨?_, ?_⟩
  · unfold getDirectionPhrase
    rw [if_neg n0, if_neg n1, if_neg n2, if_neg n3, if_neg n4, if_neg n5, if_neg n6,
      if_pos ⟨h1, h2⟩]
  · unfold getDirectionPhraseNamed
    rw [if_neg n0, if_neg n1, if_neg n2, if_neg n3, if_neg n4, if_neg n5, if_neg n6,
      if_pos ⟨h1, h2⟩]

/-- Any index satisfying a sector guard is one of the eight branches. -/
lemma sectorCond_lt8 (i : ℕ) (b : ℚ) (h : sectorCond i b) : i < 8 := by
  by_contra hc
  push_neg at hc
  unfold sectorCond at h
  rw [if_neg, if_neg, if_neg, if_neg, if_neg, if_neg, if_neg, if_neg] at h
  · exact h
  all_goals omega

/-- Guard 0 evaluated. -/
lemma sectorCond_zero (b : ℚ) : sectorCond 0 b = (b > 337.5 ∨ b ≤ 22.5) := rfl

/-- Guard 1 evaluated. -/
lemma sectorCond_one (b : ℚ) : sectorCond 1 b = (b > 22.5 ∧ b ≤ 67.5) := rfl

/-- Guard 2 evaluated. -/
lemma sectorCond_two (b : ℚ) : sectorCond 2 b = (b > 67.5 ∧ b ≤ 112.5) := rfl

/-- Guard 3 evaluated. -/
lemma sectorCond_three (b : ℚ) : sectorCond 3 b = (b > 112.5 ∧ b ≤ 157.5) := rfl

/-- Guard 4 evaluated. -/
lemma sectorCond_four (b : ℚ) : sectorCond 4 b = (b > 157.5 ∧ b ≤ 202.5) := rfl

/-- Guard 5 evaluated. -/
lemma sectorCond_five (b : ℚ) : sectorCond 5 b = (b > 202.5 ∧ b ≤ 247.5) := rfl

/-- Guard 6 evaluated. -/
lemma sectorCond_six (b : ℚ) : sectorCond 6 b = (b > 247.5 ∧ b ≤ 292.5) := rfl

/-- Guard 7 evaluated. -/
lemma sectorCond_seven (b : ℚ) : sectorCond 7 b = (b > 292.5 ∧ b ≤ 337.5) := rfl

/-- The eight sector guards are pairwise disjoint. -/
lemma sectorCond_disjoint (b : ℚ) (i j : ℕ) (hi : sectorCond i b)
    (hj : sectorCond j b) : i = j := by
  have hi8 := sectorCond_lt8 i b hi
  have hj8 := sectorCond_lt8 j b hj
  interval_cases i <;> interval_cases j <;>
    simp only [sectorCond_zero, sectorCond_one, sectorCond_two, sectorCond_three,
      sectorCond_four, sectorCond_five, sectorCond_six, sectorCond_seven,
      gt_iff_lt] at hi hj <;>
    first
    | rfl
    | (exfalso; rcases hi with hi | hi <;> linarith [hj.1, hj.2])
    | (exfalso; rcases hj with hj | hj <;> linarith [hi.1, hi.2])
    | (exfalso; linarith [hi.1, hi.2, hj.1, hj.2])

/-- C4 amended: bearing exactly 0 resolves to North; every bearing strictly
between 337.5 and 360 resolves to North (so North wraps across 0/360 as the
half-open union (337.5, 360) with [0, 22.5]); exactly 337.5 resolves to
NorthWest, consistently with every sector boundary being closed on its
upper edge and open on its lower edge, each boundary value resolving
deterministically to the lower sector. -/
theorem C4_boundary_amended :
    (getDirectionPhrase 0 = ["North"] ∧ getDirectionPhraseNamed 0 = ["North"]) ∧
    (∀ b : ℚ, 337.5 < b → b < 360 →
      getDirectionPhrase b = ["North"] ∧ getDirectionPhraseNamed b = ["North"]) ∧
    (∀ b : ℚ, 0 ≤ b → b ≤ 22.5 →
      getDirectionPhrase b = ["North"] ∧ getDirectionPhraseNamed b = ["North"]) ∧
    (getDirectionPhrase 337.5 = ["between", "West", "and", "North"] ∧
      getDirectionPhraseNamed 337.5 = ["NorthWest"]) ∧
    (getDirectionPhraseNamed 22.5 = ["North"] ∧
      getDirectionPhraseNamed 67.5 = ["NorthEast"] ∧
      getDirectionPhraseNamed 112.5 = ["East"] ∧
      getDirectionPhraseNamed 157.5 = ["EastSouth"] ∧
      getDirectionPhraseNamed 202.5 = ["South"] ∧
      getDirectionPhraseNamed 247.5 = ["SouthWest"] ∧
      getDirectionPhraseNamed 292.5 = ["West"]) := by
  refine ⟨sector_north 0 (by norm_num), ?_, ?_, sector7 337.5 (by norm_num) (by norm_num), ?_⟩
  · intro b h1 _
    exact sector_north b (Or.inl h1)
  · intro b _ h2
    exact sector_north b (Or.inr h2)
  · exact ⟨(sector_north 22.5 (by norm_num)).2, (sector1 67.5 (by norm_num) (by norm_num)).2,
      (sector2 112.5 (by norm_num) (by norm_num)).2, (sector3 157.5 (by norm_num) (by norm_num)).2,
      (sector4 202.5 (by norm_num) (by norm_num)).2, (sector5 247.5 (by norm_num) (by norm_num)).2,
      (sector6 292.5 (by norm_num) (by norm_num)).2⟩

/-- C4 witness: the amended theorem applied at the concrete bearing 350,
which lies strictly between 337.5 and 360 and resolves to North. -/
theorem C4_boundary_amended_witness :
    getDirectionPhrase 350 = ["North"] ∧ getDirectionPhraseNamed 350 = ["North"] :=
  C4_boundary_amended.2.1 350 (by norm_num) (by norm_num)

/-- C5: for every bearing in [0, 360) both classifiers return a non-empty
token sequence, and exactly one of the eight sector guards of the source
if-chain holds, so the final empty-list fallback is unreachable in range. -/
theorem C5_sector_total (b : ℚ) (hb0 : 0 ≤ b) (hb1 : b < 360) :
    getDirectionPhrase b ≠ [] ∧ getDirectionPhraseNamed b ≠ [] ∧
    ∃! i, sectorCond i b := by
  have mk : ∀ (i : ℕ), sectorCond i b →
      getDirectionPhrase b ≠ [] → getDirectionPhraseNamed b ≠ [] →
      (getDirectionPhrase b ≠ [] ∧ getDirectionPhraseNamed b ≠ [] ∧ ∃! k, sectorCond k b) :=
    fun i hi h1 h2 => ⟨h1, h2, ⟨i, hi, fun j hj => sectorCond_disjoint b j i hj hi⟩⟩
  rcases le_or_lt b 22.5 with h | h
  · exact mk 0 ((sectorCond_zero b).symm ▸ Or.inr h)
      (by simp [(sector_north b (Or.inr h)).1]) (by simp [(sector_north b (Or.inr h)).2])
  rcases le_or_lt b 67.5 with h2 | h2
  · exact mk 1 ((sectorCond_one b).symm ▸ ⟨h, h2⟩)
      (by simp [(sector1 b h h2).1]) (by simp [(sector1 b h h2).2])
  rcases le_or_lt b 112.5 with h3 | h3
  · exact mk 2 ((sectorCond_two b).symm ▸ ⟨h2, h3⟩)
      (by simp [(sector2 b h2 h3).1]) (by simp [(sector2 b h2 h3).2])
  rcases le_or_lt b 157.5 with h4 | h4
  · exact mk 3 ((sectorCond_three b).symm ▸ ⟨h3, h4⟩)
      (by simp [(sector3 b h3 h4).1]) (by simp [(sector3 b h3 h4).2])
  rcases le_or_lt b 202.5 with h5 | h5
  · exact mk 4 ((sectorCond_four b).symm ▸ ⟨h4, h5⟩)
      (by simp [(sector4 b h4 h5).1]) (by simp [(sector4 b h4 h5).2])
  rcases le_or_lt b 247.5 with h6 | h6
  · exact mk 5 ((sectorCond_five b).symm ▸ ⟨h5, h6⟩)
      (by simp [(sector5 b h5 h6).1]) (by simp [(sector5 b h5 h6).2])
  rcases le_or_lt b 292.5 with h7 | h7
  · exact mk 6 ((sectorCond_six b).symm ▸ ⟨h6, h7⟩)
      (by simp [(sector6 b h6 h7).1]) (by simp [(sector6 b h6 h7).2])
  rcases le_or_lt b 337.5 with h8 | h8
  · exact mk 7 ((sectorCond_seven b).symm ▸ ⟨h7, h8⟩)
      (by simp [(sector7 b h7 h8).1]) (by simp [(sector7 b h7 h8).2])
  · exact mk 0 ((sectorCond_zero b).symm ▸ Or.inl h8)
      (by simp [(sector_north b (Or.inl h8)).1]) (by simp [(sector_north b (Or.inl h8)).2])

/-- C5 witness: the totality theorem applied at the concrete bearing 100. -/
theorem C5_sector_total_witness :
    getDirectionPhrase 100 ≠ [] ∧ getDirectionPhraseNamed 100 ≠ [] ∧
    ∃! i, sectorCond i (100 : ℚ) :=
  C5_sector_total 100 (by norm_num) (by norm_num)

/-- Counting debounce fires distributes over concatenated cycle lists. -/
lemma runDebounce_append (m : Bool) (l1 l2 : List (Option Candidate)) :
    ∀ d : Option NotifiedPlane,
      runDebounce m d (l1 ++ l2) =
        ((runDebounce m (runDebounce m d l1).1 l2).1,
          (runDebounce m d l1).2 + (runDebounce m (runDebounce m d l1).1 l2).2) := by
  induction l1 with
  | nil => intro d; simp [runDebounce]
  | cons c cs ih =>
    intro d
    simp [runDebounce, ih (debounceStep m d c).1, Nat.add_assoc]

/-- While the candidate keeps the identity of the notified plane, the
debounce keeps the notified plane unchanged and never fires. -/
lemma runDebounce_same (m : Bool) (x : String) (cs : List (Option Candidate))
    (d : NotifiedPlane) (hd : d.icao24 = x)
    (hall : ∀ c ∈ cs, ∃ p : Candidate, c = some p ∧ p.icao24 = x) :
    runDebounce m (some d) cs = (some d, 0) := by
  induction cs with
  | nil => rfl
  | cons c cs ih =>
    obtain ⟨p, rfl, hp⟩ := hall c (List.mem_cons_self c cs)
    have hd2 : d.plane.icao24 = x := hd
    have hp2 : p.plane.icao24 = x := hp
    have hstep : debounceStep m (some d) (some p) = (some d, false) := by
      simp [debounceStep, Candidate.icao24, NotifiedPlane.icao24, hd2, hp2]
    have ht := ih (fun c hc => hall c (List.mem_cons_of_mem _ hc))
    simp [runDebounce, hstep, ht]

/-- A run of empty candidates clears the notified plane and never fires. -/
lemma runDebounce_clears (m : Bool) (cs : List (Option Candidate))
    (d : Option NotifiedPlane) (hall : ∀ c ∈ cs, c = none) (hne : cs ≠ []) :
    runDebounce m d cs = (none, 0) := by
  induction cs generalizing d with
  | nil => exact absurd rfl hne
  | cons c cs ih =>
    have hc : c = none := hall c (List.mem_cons_self c cs)
    subst hc
    by_cases hcs : cs = []
    · subst hcs; rfl
    · have ht := ih none (fun c hc2 => hall c (List.mem_cons_of_mem _ hc2)) hcs
      simp [runDebounce, debounceStep, ht]

/-- A nonempty run of same-identity candidates starting from a notified
plane of a different identity (or none) fires exactly once and ends with
that identity notified. -/
lemma runDebounce_fresh (m : Bool) (x : String) (cs : List (Option Candidate))
    (d₀ : Option NotifiedPlane)
    (hcs : ∀ c ∈ cs, ∃ p : Candidate, c = some p ∧ p.icao24 = x)
    (hne : cs ≠ [])
    (hd : ∀ p, d₀ = some p → p.icao24 ≠ x) :
    (runDebounce m d₀ cs).2 = 1 ∧
    ∃ d, (runDebounce m d₀ cs).1 = some d ∧ d.icao24 = x := by
  cases cs with
  | nil => exact absurd rfl hne
  | cons c cs =>
    obtain ⟨p, rfl, hp⟩ := hcs c (List.mem_cons_self c cs)
    have hstep : debounceStep m d₀ (some p) = (some (p.promote m), true) := by
      cases d₀ with
      | none => rfl
      | some d =>
        have hne2 : d.icao24 ≠ p.icao24 := by rw [hp]; exact hd d rfl
        simp [debounceStep, hne2]
    have hpro : (p.promote m).icao24 = x := hp
    have ht := runDebounce_same m x cs (p.promote m) hpro
      (fun c hc => hcs c (List.mem_cons_of_mem _ hc))
    constructor
    · simp [runDebounce, hstep, ht]
    · exact ⟨p.promote m, by simp [runDebounce, hstep, ht], hpro⟩

/-- C2: the per-cycle debounce behaves exactly as claimed (same identity
leaves the notified plane unchanged without firing, a different or first
identity is promoted and fires, an empty candidate clears), and over
consecutive cycles a fixed identity firing set yields exactly one signal,
with exactly one more after the identity leaves the qualifying set and
re-enters it. -/
theorem C2_debounce_invariant (m : Bool) (x : String) (d₀ : Option NotifiedPlane)
    (cs₁ cs₂ cs₃ : List (Option Candidate))
    (h₁ : ∀ c ∈ cs₁, ∃ p : Candidate, c = some p ∧ p.icao24 = x) (hn₁ : cs₁ ≠ [])
    (h₂ : ∀ c ∈ cs₂, c = none) (hn₂ : cs₂ ≠ [])
    (h₃ : ∀ c ∈ cs₃, ∃ p : Candidate, c = some p ∧ p.icao24 = x) (hn₃ : cs₃ ≠ [])
    (hd : ∀ p, d₀ = some p → p.icao24 ≠ x) :
    (∀ (d : NotifiedPlane) (c : Candidate), d.icao24 = c.icao24 →
      debounceStep m (some d) (some c) = (some d, false)) ∧
    (∀ (d : NotifiedPlane) (c : Candidate), d.icao24 ≠ c.icao24 →
      debounceStep m (some d) (some c) = (some (c.promote m), true)) ∧
    (∀ c : Candidate, debounceStep m none (some c) = (some (c.promote m), true)) ∧
    (∀ d : Option NotifiedPlane, debounceStep m d none = (none, false)) ∧
    (runDebounce m d₀ cs₁).2 = 1 ∧
    (runDebounce m d₀ (cs₁ ++ cs₂ ++ cs₃)).2 = 2 := by
  obtain ⟨hc1, d1, hd1, hx1⟩ := runDebounce_fresh m x cs₁ d₀ h₁ hn₁ hd
  obtain ⟨hc3, _⟩ :=
    runDebounce_fresh m x cs₃ none h₃ hn₃ (fun p hp => Option.noConfusion hp)
  refine ⟨?_, ?_, ?_, ?_, hc1, ?_⟩
  · intro d c h; simp [debounceStep, h]
  · intro d c h; simp [debounceStep, h]
  · intro c; rfl
  · intro d; cases d <;> rfl
  · rw [List.append_assoc, runDebounce_append m cs₁ (cs₂ ++ cs₃) d₀,
      runDebounce_append m cs₂ cs₃ (runDebounce m d₀ cs₁).1,
      runDebounce_clears m cs₂ (runDebounce m d₀ cs₁).1 h₂ hn₂]
    simp [hc1, hc3]

/-- C2 witness: a concrete three-phase run (candidate with identity A, then
no candidate, then the same identity again) fires once in the first phase
and twice over the whole run. -/
theorem C2_debounce_invariant_witness :
    (runDebounce false none [some cX]).2 = 1 ∧
    (runDebounce false none ([some cX] ++ [none] ++ [some cX])).2 = 2 := by
  have h := C2_debounce_invariant false "A" none [some cX] [none] [some cX]
    (by intro c hc; rw [List.mem_singleton] at hc; exact ⟨cX, hc, rfl⟩)
    (by simp)
    (by intro c hc; rw [List.mem_singleton] at hc; exact hc)
    (by simp)
    (by intro c hc; rw [List.mem_singleton] at hc; exact ⟨cX, hc, rfl⟩)
    (by simp)
    (by intro p hp; exact Option.noConfusion hp)
  exact ⟨h.2.2.2.2.1, h.2.2.2.2.2⟩

/-- The compass field after one scan iteration. -/
lemma scanStep_compass (cd : DistF) (u : GeoPoint) (acc : ScanAcc) (x : Plane) :
    (scanStep cd u acc x).closestPlaneForCompass =
      if ltInf (planeDist cd u x) acc.minDistance then some x
      else acc.closestPlaneForCompass := by
  unfold scanStep
  by_cases h1 : ltInf (planeDist cd u x) acc.minDistance <;>
    by_cases h2 : planeDist cd u x < NOTIFICATION_RADIUS_KM ∧
      x.altitude_m * FT_PER_M > MINIMUM_ALTITUDE_FT <;>
    simp [h1, h2]

/-- The minimum-distance field after one scan iteration. -/
lemma scanStep_minDist (cd : DistF) (u : GeoPoint) (acc : ScanAcc) (x : Plane) :
    (scanStep cd u acc x).minDistance =
      if ltInf (planeDist cd u x) acc.minDistance then some (planeDist cd u x)
      else acc.minDistance := by
  unfold scanStep
  by_cases h1 : ltInf (planeDist cd u x) acc.minDistance <;>
    by_cases h2 : planeDist cd u x < NOTIFICATION_RADIUS_KM ∧
      x.altitude_m * FT_PER_M > MINIMUM_ALTITUDE_FT <;>
    simp [h1, h2]

/-- One scan iteration preserves the compass invariant. -/
lemma scanStep_compassInv (cd : DistF) (u : GeoPoint) (seen : List Plane)
    (acc : ScanAcc) (x : Plane) (h : CompassInv cd u seen acc) :
    CompassInv cd u (seen ++ [x]) (scanStep cd u acc x) := by
  rcases h with ⟨hc, hm, hs⟩ | ⟨p, hc, hm, hmem, hmin⟩
  · subst hs
    have hlt : ltInf (planeDist cd u x) acc.minDistance := by rw [hm]; trivial
    right
    refine ⟨x, ?_, ?_, by simp, ?_⟩
    · rw [scanStep_compass, if_pos hlt]
    · rw [scanStep_minDist, if_pos hlt]
    · intro q hq
      simp only [List.nil_append, List.mem_singleton] at hq
      subst hq
      exact le_refl _
  · by_cases hlt : ltInf (planeDist cd u x) acc.minDistance
    · right
      have hxp : planeDist cd u x < planeDist cd u p := by
        rw [hm] at hlt; exact hlt
      refine ⟨x, by rw [scanStep_compass, if_pos hlt],
        by rw [scanStep_minDist, if_pos hlt],
        List.mem_append_right _ (by simp), ?_⟩
      intro q hq
      rcases List.mem_append.1 hq with hq | hq
      · exact le_of_lt (lt_of_lt_of_le hxp (hmin q hq))
      · simp only [List.mem_singleton] at hq
        subst hq
        exact le_refl _
    · right
      have hpx : planeDist cd u p ≤ planeDist cd u x := by
        rw [hm] at hlt
        exact le_of_not_lt hlt
      refine ⟨p, by rw [scanStep_compass, if_neg hlt]; exact hc,
        by rw [scanStep_minDist, if_neg hlt]; exact hm,
        List.mem_append_left _ hmem, ?_⟩
      intro q hq
      rcases List.mem_append.1 hq with hq | hq
      · exact hmin q hq
      · simp only [List.mem_singleton] at hq
        subst hq
        exact hpx

/-- The whole scan fold preserves the compass invariant. -/
lemma scan_foldl_inv (cd : DistF) (u : GeoPoint) (l : List Plane) :
    ∀ (seen : List Plane) (acc : ScanAcc), CompassInv cd u seen acc →
      CompassInv cd u (seen ++ l) (List.foldl (scanStep cd u) acc l) := by
  induction l with
  | nil => intro seen acc h; simpa using h
  | cons x xs ih =>
    intro seen acc h
    have h1 := scanStep_compassInv cd u seen acc x h
    have h2 := ih (seen ++ [x]) (scanStep cd u acc x) h1
    simpa [List.append_assoc] using h2

/-- C3: the compass target of every evaluation cycle is a sighting of
minimal distance among ALL sightings, with no reference to the admission
thresholds; its bearing is committed to the Bearing state; and with an
empty sighting list no compass target exists and the bearing is left
untouched for idle rotation. -/
theorem C3_compass_target (cd cb : DistF) (u : GeoPoint) (planes : List Plane)
    (s : AppState) :
    (planes = [] →
      (scanPlanes cd u planes).closestPlaneForCompass = none ∧
      (fetchCycleSuccess cd cb u planes s).1.bearing = s.bearing) ∧
    (planes ≠ [] → ∃ p,
      (scanPlanes cd u planes).closestPlaneForCompass = some p ∧ p ∈ planes ∧
      (∀ q ∈ planes, planeDist cd u p ≤ planeDist cd u q) ∧
      (fetchCycleSuccess cd cb u planes s).1.bearing = cb u.lat u.lng p.lat p.lon) := by
  constructor
  · rintro rfl
    exact ⟨rfl, rfl⟩
  · intro hne
    have h := scan_foldl_inv cd u planes [] ⟨none, none, none⟩ (Or.inl ⟨rfl, rfl, rfl⟩)
    rcases h with ⟨hc, hm, hs⟩ | ⟨p, hc, hm, hmem, hmin⟩
    · exact absurd (by simpa using hs) hne
    · have hc2 : (scanPlanes cd u planes).closestPlaneForCompass = some p := hc
      refine ⟨p, hc2, by simpa using hmem, fun q hq => hmin q (by simpa using hq), ?_⟩
      simp [fetchCycleSuccess, hc2]

/-- C3 witness: the compass theorem applied to a singleton list holding a
plane that FAILS the altitude threshold; it is still the compass target and
its bearing is committed. -/
theorem C3_compass_target_witness :
    [pLow] ≠ [] ∧ ∃ p,
      (scanPlanes taxiDist u0 [pLow]).closestPlaneForCompass = some p ∧
      p ∈ [pLow] ∧
      (∀ q ∈ [pLow], planeDist taxiDist u0 p ≤ planeDist taxiDist u0 q) ∧
      (fetchCycleSuccess taxiDist northBear u0 [pLow] s0).1.bearing =
        northBear u0.lat u0.lng p.lat p.lon :=
  ⟨by simp, (C3_compass_target taxiDist northBear u0 [pLow] s0).2 (by simp)⟩

/-- Every state reached by running UI events is an effect-reconciled state. -/
lemma foldl_uiStep_reconciled (evs : List UiEvent) :
    ∀ u : UiState, ∃ t, List.foldl uiStep (reconcileEffects u) evs = reconcileEffects t := by
  induction evs with
  | nil => intro u; exact ⟨u, rfl⟩
  | cons e es ih =>
    intro u
    have h := ih (applyUi (reconcileEffects u) e)
    simpa [List.foldl, uiStep] using h

/-- C6: at every observation point (after each committed state change and
effect flush) each idle-rotation schedule is active exactly when tracking
is on and no plane is detected; in particular neither is ever active while
a NotifiedAircraft exists, and both are cancelled by the very step in which
a NotifiedAircraft appears or tracking stops. -/
theorem C6_idle_rotation (s : UiState) (evs : List UiEvent) :
    ((runUi s evs).scanningActive =
      (((runUi s evs).isTracking || (runUi s evs).isMockMode) &&
        (runUi s evs).detectedPlane.isNone)) ∧
    ((runUi s evs).rotateActive =
      ((runUi s evs).isTracking && (runUi s evs).detectedPlane.isNone)) ∧
    (∀ p, (runUi s evs).detectedPlane = some p →
      (runUi s evs).scanningActive = false ∧ (runUi s evs).rotateActive = false) ∧
    (∀ p, (uiStep (runUi s evs) (UiEvent.setDetectedPlane (some p))).scanningActive = false ∧
      (uiStep (runUi s evs) (UiEvent.setDetectedPlane (some p))).rotateActive = false) ∧
    ((uiStep (uiStep (runUi s evs) (UiEvent.setTracking false))
        (UiEvent.setMockMode false)).scanningActive = false ∧
      (uiStep (runUi s evs) (UiEvent.setTracking false)).rotateActive = false) := by
  obtain ⟨t, ht⟩ := foldl_uiStep_reconciled evs s
  have ht2 : runUi s evs = reconcileEffects t := ht
  rw [ht2]
  refine ⟨rfl, rfl, ?_, ?_, ?_⟩
  · intro p hp
    have hp2 : t.detectedPlane = some p := hp
    exact ⟨by simp [reconcileEffects, hp2], by simp [reconcileEffects, hp2]⟩
  · intro p
    exact ⟨by simp [uiStep, applyUi, reconcileEffects],
      by simp [uiStep, applyUi, reconcileEffects]⟩
  · exact ⟨by simp [uiStep, applyUi, reconcileEffects],
      by simp [uiStep, applyUi, reconcileEffects]⟩

/-- C6 witness: starting tracking and then detecting a plane leaves both
idle-rotation schedules cancelled. -/
theorem C6_idle_rotation_witness :
    (runUi ui0 [UiEvent.setTracking true,
      UiEvent.setDetectedPlane (some npN)]).scanningActive = false ∧
    (runUi ui0 [UiEvent.setTracking true,
      UiEvent.setDetectedPlane (some npN)]).rotateActive = false :=
  (C6_idle_rotation ui0
    [UiEvent.setTracking true, UiEvent.setDetectedPlane (some npN)]).2.2.1 npN rfl

/-- The queue advance starting from an idle player keeps the flag-clear
implies nothing-playing invariant. -/
lemma playNextAux_none_inv (l : List String) : AudioInv (playNextAux l none) := by
  induction l with
  | nil => intro _; rfl
  | cons n rest ih =>
    cases hs : soundFiles n with
    | some v => intro h; simp [playNextAux, hs] at h
    | none => simpa [playNextAux, hs] using ih

/-- Every narration event preserves the flag-clear implies nothing-playing
invariant. -/
lemma audioStep_inv (s : AudioState) (e : AudioEvent) (h : AudioInv s) :
    AudioInv (audioStep s e) := by
  cases e with
  | stopAll => intro _; rfl
  | ended =>
    show AudioInv (playNextInQueue { s with playing := none })
    simpa [playNextInQueue] using playNextAux_none_inv s.queue
  | speak cb user d =>
    show AudioInv (handleSpeakDirection cb user d s)
    cases hsp : s.isSpeaking with
    | true => simpa [handleSpeakDirection, hsp] using h
    | false =>
      cases d with
      | none => simpa [handleSpeakDirection, hsp] using h
      | some p =>
        simp only [handleSpeakDirection, hsp]
        simpa [stopAllAudio, playNextInQueue] using
          playNextAux_none_inv
            (getDirectionPhraseNamed (cb user.lat user.lng p.plane.lat p.plane.lon))

/-- Narration event runs preserve the invariant. -/
lemma runAudio_inv (evs : List AudioEvent) :
    ∀ s : AudioState, AudioInv s → AudioInv (runAudio s evs) := by
  induction evs with
  | nil => intro s h; exact h
  | cons e es ih =>
    intro s h
    have h2 := ih (audioStep s e) (audioStep_inv s e h)
    simpa [runAudio, List.foldl] using h2

/-- C7: `stopAllAudio` always leaves the queue empty, the playing flag
cleared and no clip in flight (safe to call at any time, including when
idle); a narration request while playback is in progress is a no-op; and
along every event trace, whenever the playing flag is clear no clip is in
flight, so each clip starts only from a completion (or a fresh request on
an idle player) and the single player slot never holds two clips. -/
theorem C7_narration_queue :
    (∀ s : AudioState, stopAllAudio s = ⟨[], false, none⟩) ∧
    (∀ (cb : DistF) (user : GeoPoint) (d : Option NotifiedPlane)
        (q : List String) (pl : Option String),
      handleSpeakDirection cb user d ⟨q, true, pl⟩ = ⟨q, true, pl⟩) ∧
    (∀ evs : List AudioEvent,
      (runAudio ⟨[], false, none⟩ evs).isSpeaking = false →
      (runAudio ⟨[], false, none⟩ evs).playing = none) := by
  refine ⟨fun s => rfl, fun cb user d q pl => rfl, ?_⟩
  intro evs
  exact runAudio_inv evs ⟨[], false, none⟩ (fun _ => rfl)

/-- C7 witness: the trace invariant applied to the concrete one-event trace
that stops all audio from the idle state. -/
theorem C7_narration_queue_witness :
    (runAudio ⟨[], false, none⟩ [AudioEvent.stopAll]).playing = none :=
  C7_narration_queue.2.2 [AudioEvent.stopAll] rfl

/-- The digit accumulator of `Nat.toDigitsCore` prepends to its third
argument. -/
lemma toDigitsCore_append_aux : ∀ (fuel n : ℕ) (ds : List Char),
    Nat.toDigitsCore 10 fuel n ds = Nat.toDigitsCore 10 fuel n [] ++ ds := by
  intro fuel
  induction fuel with
  | zero => intro n ds; simp [Nat.toDigitsCore]
  | succ f ih =>
    intro n ds
    simp only [Nat.toDigitsCore]
    by_cases h : n / 10 = 0
    · simp [h]
    · rw [if_neg h, if_neg h, ih (n / 10) (Nat.digitChar (n % 10) :: ds),
        ih (n / 10) [Nat.digitChar (n % 10)]]
      simp

/-- Appending one digit multiplies the decimal value by ten and adds it. -/
lemma digitsVal_append (l : List Char) (c : Char) :
    digitsVal (l ++ [c]) = 10 * digitsVal l + (c.toNat - 48) := by
  simp [digitsVal, List.foldl_append]

/-- Decimal digits decode through `Nat.digitChar`. -/
lemma digitChar_sub (d : ℕ) (h : d < 10) : (Nat.digitChar d).toNat - 48 = d := by
  interval_cases d <;> rfl

/-- `digitsVal` inverts `Nat.toDigitsCore` at base ten with enough fuel. -/
lemma digitsVal_toDigitsCore : ∀ (fuel n : ℕ), n < fuel →
    digitsVal (Nat.toDigitsCore 10 fuel n []) = n := by
  intro fuel
  induction fuel with
  | zero => intro n h; omega
  | succ f ih =>
    intro n h
    simp only [Nat.toDigitsCore]
    by_cases h0 : n / 10 = 0
    · rw [if_pos h0]
      have hn : n < 10 := by omega
      have hmod : n % 10 = n := Nat.mod_eq_of_lt hn
      have hd := digitChar_sub (n % 10) (Nat.mod_lt n (by norm_num))
      rw [hmod] at hd
      simp [digitsVal, hd, hmod]
    · rw [if_neg h0, toDigitsCore_append_aux f (n / 10) [Nat.digitChar (n % 10)]]
      have hlt : n / 10 < f := by omega
      rw [digitsVal_append, ih (n / 10) hlt,
        digitChar_sub (n % 10) (Nat.mod_lt n (by norm_num))]
      omega

/-- Decimal printing of naturals is injective. -/
lemma nat_repr_injective : Function.Injective Nat.repr := by
  intro m n h
  have hd : Nat.toDigits 10 m = Nat.toDigits 10 n := by
    have h2 := congrArg String.data h
    simpa [Nat.repr, List.asString] using h2
  have hm := digitsVal_toDigitsCore (m + 1) m (Nat.lt_succ_self m)
  have hn := digitsVal_toDigitsCore (n + 1) n (Nat.lt_succ_self n)
  unfold Nat.toDigits at hd
  rw [← hm, ← hn, hd]

/-- Two different timestamps give two different mock identities. -/
lemma mkMockIcao_injective : Function.Injective mkMockIcao := by
  intro a b h
  apply nat_repr_injective
  apply String.ext
  have h2 := congrArg String.data h
  simp only [mkMockIcao, String.data_append] at h2
  exact List.append_cancel_left h2

/-- Along a mock run with strictly increasing timestamps, starting from a
state whose notified plane (if any) carries an older mock identity, the
signal fires exactly on the qualifying cycles. -/
lemma runMock_fires (cd cb : DistF) (u : GeoPoint) (cycles : List (ℕ × MockParams)) :
    ∀ s : AppState,
      cycles.Pairwise (fun a b => a.1 < b.1) →
      (s.detectedPlane = none ∨
        ∃ t₀ d, s.detectedPlane = some d ∧ d.icao24 = mkMockIcao t₀ ∧
          ∀ c ∈ cycles, t₀ < c.1) →
      (runMock cd cb (some u) s cycles).2 =
        cycles.map (fun c => mockQualifies cd u c.1 c.2) := by
  induction cycles with
  | nil => intro s _ _; rfl
  | cons c rest ih =>
    obtain ⟨t, pr⟩ := c
    intro s hpw hinv
    rw [List.pairwise_cons] at hpw
    obtain ⟨hlt, hpw2⟩ := hpw
    by_cases hq : cd u.lat u.lng (mkMockPlane u t pr).lat (mkMockPlane u t pr).lon <
        NOTIFICATION_RADIUS_KM ∧
        (mkMockPlane u t pr).altitude_m * FT_PER_M > MINIMUM_ALTITUDE_FT
    · have hqb : mockQualifies cd u t pr = true := by
        simp [mockQualifies, hq.1, hq.2]
      have hstep : mockFetchPlaneData cd cb (some u) t pr s =
          ({ s with statusMessage := "Generating mock plane data..."
                  , bearing := cb u.lat u.lng (mkMockPlane u t pr).lat (mkMockPlane u t pr).lon
                  , detectedPlane := some ⟨mkMockPlane u t pr,
                      (mkMockPlane u t pr).altitude_m * FT_PER_M, true⟩ }, true) := by
        rcases hinv with hnone | ⟨t₀, d, hd, hicao, hall⟩
        · simp [mockFetchPlaneData, hnone, hq]
        · have hne : d.icao24 ≠ (mkMockPlane u t pr).icao24 := by
            rw [hicao]
            intro hcontra
            have h2 := mkMockIcao_injective (show mkMockIcao t₀ = mkMockIcao t from hcontra)
            have h3 := hall (t, pr) (List.mem_cons_self _ _)
            omega
          simp [mockFetchPlaneData, hd, hq, hne]
      have hih := ih { s with
            statusMessage := "Generating mock plane data...",
            bearing := cb u.lat u.lng (mkMockPlane u t pr).lat (mkMockPlane u t pr).lon,
            detectedPlane := some ⟨mkMockPlane u t pr,
              (mkMockPlane u t pr).altitude_m * FT_PER_M, true⟩ } hpw2
        (Or.inr ⟨t,
          ⟨mkMockPlane u t pr, (mkMockPlane u t pr).altitude_m * FT_PER_M, true⟩,
          rfl, rfl, fun c hc => hlt c hc⟩)
      simp [runMock, hstep, hqb, hih]
    · have hqb : mockQualifies cd u t pr = false := by
        rcases not_and_or.1 hq with h | h
        · simp [mockQualifies, decide_eq_false h]
        · simp [mockQualifies, decide_eq_false h]
      have hstep : mockFetchPlaneData cd cb (some u) t pr s =
          ({ s with statusMessage := "Generating mock plane data..."
                  , bearing := cb u.lat u.lng (mkMockPlane u t pr).lat (mkMockPlane u t pr).lon
                  , detectedPlane := none }, false) := by
        simp [mockFetchPlaneData, hq]
      have hih := ih { s with
            statusMessage := "Generating mock plane data...",
            bearing := cb u.lat u.lng (mkMockPlane u t pr).lat (mkMockPlane u t pr).lon,
            detectedPlane := none } hpw2 (Or.inl rfl)
      simp [runMock, hstep, hqb, hih]

/-- C10: every mock cycle builds its plane identity from the current
timestamp, so identities of cycles with different timestamps differ; and
along any mock run with strictly increasing timestamps starting with no
notified plane, the new-detection signal fires on exactly the cycles whose
mock plane meets the admission thresholds: the debounce never suppresses a
qualifying mock cycle. -/
theorem C10_mock_identity_fresh (cd cb : DistF) (u : GeoPoint) (s : AppState)
    (cycles : List (ℕ × MockParams))
    (hfresh : cycles.Pairwise (fun a b => a.1 < b.1))
    (hstart : s.detectedPlane = none) :
    (∀ (t1 t2 : ℕ) (pr1 pr2 : MockParams), t1 ≠ t2 →
      (mkMockPlane u t1 pr1).icao24 ≠ (mkMockPlane u t2 pr2).icao24) ∧
    (runMock cd cb (some u) s cycles).2 =
      cycles.map (fun c => mockQualifies cd u c.1 c.2) := by
  constructor
  · intro t1 t2 pr1 pr2 hne hcontra
    exact hne (mkMockIcao_injective hcontra)
  · exact runMock_fires cd cb u cycles s hfresh (Or.inl hstart)

/-- C10 witness: a concrete two-cycle mock run at timestamps 1000 and 2000
from the empty state, with the fire list given by the qualifying test. -/
theorem C10_mock_identity_fresh_witness :
    (runMock taxiDist northBear (some u0) s0 [(1000, prm), (2000, prm)]).2 =
      List.map (fun c => mockQualifies taxiDist u0 c.1 c.2) [(1000, prm), (2000, prm)] :=
  (C10_mock_identity_fresh taxiDist northBear u0 s0 [(1000, prm), (2000, prm)]
    (by norm_num [List.pairwise_cons]) rfl).2

/-- C9 amended: in the `part_000` variant the narrated phrase classifies the
bearing recomputed fresh from the current user position to the current
notified plane, while in the `App.jsx` variant the narrated phrase
classifies the committed `bearing` state value from the last poll. -/
theorem C9_fresh_bearing_amended (cb : DistF) (user : GeoPoint) (p : NotifiedPlane)
    (q : List String) (pl : Option String) (b : ℚ) :
    handleSpeakDirection cb user (some p) ⟨q, false, pl⟩ =
      playNextInQueue
        ⟨getDirectionPhraseNamed (cb user.lat user.lng p.plane.lat p.plane.lon), false, none⟩ ∧
    handleSpeakDirectionApp b ⟨q, false, pl⟩ =
      playNextInQueueApp ⟨getDirectionPhrase b, false, pl⟩ :=
  ⟨rfl, rfl⟩

end VCompass
